import Mathlib

/-!
Shallow embedding of the ML-logs transformer ETL pipeline (src/app/etl.py).

Tables are lists of rows; nullable Spark columns are `Option` fields.
Timestamps are parsed from the fixed pattern yyyy-MM-ddTHHmmss-with-separators
into epoch seconds (`Int`); float values and hour differences are modelled as
exact rationals (`ℚ`), since min/max and comparisons on the values involved
agree with their real semantics.
-/

/-- A row of the logs table, schema from the log loader:
logId, expId, metricId, valid, createdAt, ingestedAt, step, value. -/
structure LogRow where
  logId : Option String
  expId : Option Int
  metricId : Option Int
  valid : Option Bool
  createdAt : Option String
  ingestedAt : Option String
  step : Option Int
  value : Option ℚ
deriving DecidableEq

/-- A row of the experiments table: expId, expName. -/
structure ExperimentRow where
  expId : Option Int
  expName : Option String
deriving DecidableEq

/-- A row of the metrics table: metricId, metricName. -/
structure MetricRow where
  metricId : Option Int
  metricName : Option String
deriving DecidableEq

/-- A row of the joined table, in the select order of join_tables. -/
structure JoinedRow where
  logId : Option String
  expId : Option Int
  expName : Option String
  metricId : Option Int
  metricName : Option String
  valid : Option Bool
  createdAt : Option String
  ingestedAt : Option String
  step : Option Int
  value : Option ℚ
deriving DecidableEq

/-- A joined row extended with the columns added by filter_late_logs. -/
structure FilteredRow where
  logId : Option String
  expId : Option Int
  expName : Option String
  metricId : Option Int
  metricName : Option String
  valid : Option Bool
  createdAt : Option String
  ingestedAt : Option String
  step : Option Int
  value : Option ℚ
  created_at_ts : Option Int
  ingested_at_ts : Option Int
  time_diff_hours : Option ℚ
deriving DecidableEq

/-- A row of the aggregated scores table. -/
structure ScoreRow where
  expId : Option Int
  metricId : Option Int
  maxValue : Option ℚ
  minValue : Option ℚ
deriving DecidableEq

/-- Numeric value of a decimal digit character. -/
def dval (c : Char) : Nat := c.toNat - 48

/-- Gregorian leap-year test. -/
def isLeap (y : Nat) : Bool := y % 4 == 0 && (y % 100 != 0 || y % 400 == 0)

/-- Number of days in a month of the proleptic Gregorian calendar. -/
def daysInMonth (y m : Nat) : Nat :=
  if m == 2 then (if isLeap y then 29 else 28)
  else if m == 4 || m == 6 || m == 9 || m == 11 then 30
  else 31

/-- Days since 1970-01-01 of a civil date (days-from-civil algorithm,
shifted by 400 years so that all intermediate arithmetic stays in `Nat`). -/
def daysFromCivil (y m d : Nat) : Int :=
  let ys := y + 400
  let yp := if m ≤ 2 then ys - 1 else ys
  let era := yp / 400
  let yoe := yp - era * 400
  let mp := if m ≤ 2 then m + 9 else m - 3
  let doy := (153 * mp + 2) / 5 + d - 1
  let doe := yoe * 365 + yoe / 4 - yoe / 100 + doy
  (era * 146097 + doe : Int) - 719468 - 146097

/-- Parse a timestamp string of the fixed format used by filter_late_logs
(yyyy-MM-ddTHHmmss with dash, colon and the letter T as separators) into epoch
seconds; any string not matching the format parses to `none`, as Spark
to_timestamp yields null. -/
def parseTimestamp (s : String) : Option Int :=
  match s.data with
  | [y1, y2, y3, y4, a1, o1, o2, a2, d1, d2, a3, h1, h2, a4, i1, i2, a5, s1, s2] =>
    if y1.isDigit && y2.isDigit && y3.isDigit && y4.isDigit &&
        o1.isDigit && o2.isDigit && d1.isDigit && d2.isDigit &&
        h1.isDigit && h2.isDigit && i1.isDigit && i2.isDigit &&
        s1.isDigit && s2.isDigit &&
        a1 == '-' && a2 == '-' && a3 == 'T' && a4 == ':' && a5 == ':' then
      let y := 1000 * dval y1 + 100 * dval y2 + 10 * dval y3 + dval y4
      let mo := 10 * dval o1 + dval o2
      let da := 10 * dval d1 + dval d2
      let hh := 10 * dval h1 + dval h2
      let mi := 10 * dval i1 + dval i2
      let ss := 10 * dval s1 + dval s2
      if 1 ≤ mo && mo ≤ 12 && 1 ≤ da && da ≤ daysInMonth y mo &&
          hh ≤ 23 && mi ≤ 59 && ss ≤ 59 then
        some (daysFromCivil y mo da * 86400 + (hh * 3600 + mi * 60 + ss : Nat))
      else none
    else none
  | _ => none

example : parseTimestamp "2024-01-01T00:00:00" = some 1704067200 := by decide
example : parseTimestamp "2024-01-01T05:00:00" = some 1704085200 := by decide
example : parseTimestamp "2024-01-01 00:00:00" = none := by decide
example : parseTimestamp "1970-01-01T00:00:00" = some 0 := by decide
example : parseTimestamp "1969-12-31T23:59:59" = some (-1) := by decide

/-- Null-respecting equality of the join keys: Spark equality of two nullable
int columns is true only when both are non-null and equal. -/
def nullEqInt (a b : Option Int) : Bool :=
  match a, b with
  | some x, some y => x == y
  | _, _ => false

/-- The projection applied by join_tables after its two inner joins: the
select list logId, expId, expName, metricId, metricName, valid, createdAt,
ingestedAt, step, value, where expId and metricId are the (matched) join
keys of the log row. -/
def mkJoined (l : LogRow) (e : ExperimentRow) (m : MetricRow) : JoinedRow :=
  { logId := l.logId
    expId := l.expId
    expName := e.expName
    metricId := l.metricId
    metricName := m.metricName
    valid := l.valid
    createdAt := l.createdAt
    ingestedAt := l.ingestedAt
    step := l.step
    value := l.value }

/-- join_tables: logs INNER JOIN experiments ON expId, then INNER JOIN
metrics ON metricId, then the fixed projection. -/
def join_tables (logs : List LogRow) (experiments : List ExperimentRow)
    (metrics : List MetricRow) : List JoinedRow :=
  logs.flatMap fun l =>
    (experiments.filter fun e => nullEqInt l.expId e.expId).flatMap fun e =>
      (metrics.filter fun m => nullEqInt l.metricId m.metricId).map fun m =>
        mkJoined l e m

/-- load_metrics: the constant two-row metrics table. -/
def load_metrics : List MetricRow :=
  [{ metricId := some 0, metricName := some "Loss" },
   { metricId := some 1, metricName := some "Accuracy" }]

/-- unix_timestamp of to_timestamp of a nullable string column: null in,
null out; otherwise the fixed-format parse. -/
def tsOf (s : Option String) : Option Int := s.bind parseTimestamp

/-- The three withColumn steps of filter_late_logs: parse both timestamp
columns and derive time_diff_hours as (ingested seconds - created seconds)
divided by 3600; a null on either side propagates to a null difference. -/
def extendRow (r : JoinedRow) : FilteredRow :=
  let c := tsOf r.createdAt
  let i := tsOf r.ingestedAt
  { logId := r.logId
    expId := r.expId
    expName := r.expName
    metricId := r.metricId
    metricName := r.metricName
    valid := r.valid
    createdAt := r.createdAt
    ingestedAt := r.ingestedAt
    step := r.step
    value := r.value
    created_at_ts := c
    ingested_at_ts := i
    time_diff_hours :=
      match i, c with
      | some bi, some bc => some (Rat.divInt (bi - bc) 3600)
      | _, _ => none }

/-- The filter predicate of filter_late_logs: time_diff_hours > hours; a
null difference compares to null, which the filter drops. -/
def keepLate (r : FilteredRow) (hours : ℚ) : Bool :=
  match r.time_diff_hours with
  | some d => decide (hours < d)
  | none => false

/-- filter_late_logs: extend each row with the derived timestamp columns and
keep the rows whose time_diff_hours is strictly greater than hours. -/
def filter_late_logs (data : List JoinedRow) (hours : ℚ) : List FilteredRow :=
  (data.map extendRow).filter fun r => keepLate r hours

/-- Spark max aggregate over a nullable column: the greatest non-null value,
null when every value is null. -/
def aggMax (vals : List ℚ) : Option ℚ :=
  vals.foldl (fun acc v =>
    match acc with
    | none => some v
    | some a => some (if a < v then v else a)) none

/-- Spark min aggregate over a nullable column: the least non-null value,
null when every value is null. -/
def aggMin (vals : List ℚ) : Option ℚ :=
  vals.foldl (fun acc v =>
    match acc with
    | none => some v
    | some a => some (if v < a then v else a)) none

/-- The grouping key of calculate_experiment_final_scores. -/
def rowKey (r : FilteredRow) : Option Int × Option Int := (r.expId, r.metricId)

/-- The key columns of an output score row. -/
def scoreKey (s : ScoreRow) : Option Int × Option Int := (s.expId, s.metricId)

/-- calculate_experiment_final_scores: group by (expId, metricId) and
aggregate max(value) and min(value) per group, skipping nulls. -/
def calculate_experiment_final_scores (data : List FilteredRow) : List ScoreRow :=
  ((data.map rowKey).dedup).map fun k =>
    { expId := k.1
      metricId := k.2
      maxValue := aggMax ((data.filter fun r => rowKey r == k).filterMap fun r => r.value)
      minValue := aggMin ((data.filter fun r => rowKey r == k).filterMap fun r => r.value) }

/-- get_spark: attempt to build the session; on success return it with no
log output, on failure log one message and re-raise the same error. -/
def get_spark {α : Type} (builder : Except String α) :
    List String × Except String α :=
  match builder with
  | Except.ok s => ([], Except.ok s)
  | Except.error e => (["Error initializing Spark session: " ++ e], Except.error e)

/-- Log row a of the end-to-end scenario. -/
def logA : LogRow :=
  { logId := some "a", expId := some 1, metricId := some 0, valid := none,
    createdAt := some "2024-01-01T00:00:00",
    ingestedAt := some "2024-01-01T05:00:00",
    step := none, value := some 2 }

/-- Log row b of the end-to-end scenario. -/
def logB : LogRow :=
  { logId := some "b", expId := some 1, metricId := some 0, valid := none,
    createdAt := some "2024-01-01T00:00:00",
    ingestedAt := some "2024-01-01T00:30:00",
    step := none, value := some 9 }

/-- The single experiment row of the end-to-end scenario. -/
def expOne : ExperimentRow := { expId := some 1, expName := some "Exp1" }

/-- C1: joining the two scenario logs with the one experiment and the
constant metrics table, filtering with an hours threshold of 1 and
aggregating yields exactly one score row, expId 1, metricId 0, with both
maxValue and minValue equal to 2 (only row a, five hours late, survives;
row b is only half an hour late). -/
theorem c1_end_to_end :
    calculate_experiment_final_scores
        (filter_late_logs (join_tables [logA, logB] [expOne] load_metrics) 1) =
      [{ expId := some 1, metricId := some 0,
         maxValue := some 2, minValue := some 2 }] := by
  decide

/-- C9: get_spark re-raises a session initialization error to its caller
after logging exactly one message, never swallowing it and never retrying,
and returns the session unchanged when initialization succeeds. -/
theorem c9_get_spark_propagates (α : Type) (e : String) (s : α) :
    get_spark (Except.error e : Except String α) =
        (["Error initializing Spark session: " ++ e], Except.error e) ∧
      get_spark (Except.ok s : Except String α) = ([], Except.ok s) :=
  ⟨rfl, rfl⟩

/-- C2: filter_late_logs retains a row exactly when both of its timestamps
parse and the difference in seconds divided by 3600 is strictly greater
than the hours threshold; a row whose difference equals hours exactly is
excluded, any strictly larger difference is included. -/
theorem c2_filter_strict_boundary (row : JoinedRow) (hours : ℚ) :
    extendRow row ∈ filter_late_logs [row] hours ↔
      ∃ c i : Int, tsOf row.createdAt = some c ∧ tsOf row.ingestedAt = some i ∧
        hours < ((i : ℚ) - (c : ℚ)) / 3600 := by
  simp only [filter_late_logs, List.map_cons, List.map_nil, List.mem_filter,
    List.mem_singleton, true_and, keepLate]
  rcases hc : tsOf row.createdAt with _ | c <;>
    rcases hi : tsOf row.ingestedAt with _ | i <;>
      simp [extendRow, hc, hi, Rat.divInt_eq_div]

/-- C10: raising the hours threshold never admits new rows: every row kept
by filter_late_logs at the larger threshold is kept at the smaller one. -/
theorem c10_filter_antitone (data : List JoinedRow) (h1 h2 : ℚ) (hle : h1 ≤ h2)
    (r : FilteredRow) (hr : r ∈ filter_late_logs data h2) :
    r ∈ filter_late_logs data h1 := by
  simp only [filter_late_logs, List.mem_filter] at hr ⊢
  refine ⟨hr.1, ?_⟩
  have h := hr.2
  rcases hd : r.time_diff_hours with _ | d
  · simp [keepLate, hd] at h
  · simp only [keepLate, hd, decide_eq_true_eq] at h ⊢
    exact lt_of_le_of_lt hle h

/-- A joined row used as a concrete witness input: log a joined with the
experiment row and the Loss metric row. -/
def jrowA : JoinedRow :=
  mkJoined logA expOne { metricId := some 0, metricName := some "Loss" }

/-- Witness for C10 at a concrete input: with thresholds 0 ≤ 1, the row
kept at threshold 1 is also kept at threshold 0. -/
theorem c10_filter_antitone_witness :
    (0 : ℚ) ≤ 1 ∧ extendRow jrowA ∈ filter_late_logs [jrowA] 1 ∧
      extendRow jrowA ∈ filter_late_logs [jrowA] 0 :=
  ⟨by decide, by decide, c10_filter_antitone [jrowA] 0 1 (by decide) _ (by decide)⟩

/-- C6: a row whose createdAt or ingestedAt column does not parse under the
fixed timestamp format (including a null column) gets a null
time_diff_hours and is excluded by filter_late_logs for every hours
threshold, negative ones included; no error is raised. -/
theorem c6_malformed_timestamp_excluded (row : JoinedRow) (hours : ℚ)
    (h : tsOf row.createdAt = none ∨ tsOf row.ingestedAt = none) :
    filter_late_logs [row] hours = [] := by
  simp only [filter_late_logs, List.map_cons, List.map_nil]
  rw [List.filter_eq_nil_iff]
  intro r hr
  rw [List.mem_singleton] at hr
  subst hr
  unfold keepLate
  rcases hc : tsOf row.createdAt with _ | c <;>
    rcases hi : tsOf row.ingestedAt with _ | i <;>
      simp_all [extendRow, hc, hi]

/-- A joined row whose createdAt uses a space instead of the letter T, so
that it does not match the fixed timestamp format. -/
def jrowBad : JoinedRow :=
  { jrowA with createdAt := some "2024-01-01 00:00:00" }

/-- Witness for C6 at a concrete input: the malformed row is excluded even
at the negative threshold -5. -/
theorem c6_malformed_timestamp_excluded_witness :
    (tsOf jrowBad.createdAt = none ∨ tsOf jrowBad.ingestedAt = none) ∧
      filter_late_logs [jrowBad] (-5) = [] :=
  ⟨Or.inl (by decide),
    c6_malformed_timestamp_excluded jrowBad (-5) (Or.inl (by decide))⟩

/-- join_tables distributes over appending log tables. -/
lemma join_tables_append (xs ys : List LogRow) (exps : List ExperimentRow)
    (mets : List MetricRow) :
    join_tables (xs ++ ys) exps mets =
      join_tables xs exps mets ++ join_tables ys exps mets := by
  simp [join_tables]

/-- join_tables splits a leading log row off as its own contribution. -/
lemma join_tables_cons (l : LogRow) (xs : List LogRow)
    (exps : List ExperimentRow) (mets : List MetricRow) :
    join_tables (l :: xs) exps mets =
      join_tables [l] exps mets ++ join_tables xs exps mets := by
  simp [join_tables]

/-- A log row with no experiment match contributes nothing to the join. -/
lemma join_single_no_exp (l : LogRow) (exps : List ExperimentRow)
    (mets : List MetricRow)
    (h : ∀ e ∈ exps, nullEqInt l.expId e.expId = false) :
    join_tables [l] exps mets = [] := by
  simp only [join_tables, List.flatMap_cons, List.flatMap_nil, List.append_nil]
  rw [List.filter_eq_nil_iff.mpr fun e he => by simp [h e he]]
  simp

/-- A log row with no metric match contributes nothing to the join. -/
lemma join_single_no_met (l : LogRow) (exps : List ExperimentRow)
    (mets : List MetricRow)
    (h : ∀ m ∈ mets, nullEqInt l.metricId m.metricId = false) :
    join_tables [l] exps mets = [] := by
  simp only [join_tables, List.flatMap_cons, List.flatMap_nil, List.append_nil]
  have hm : (mets.filter fun m => nullEqInt l.metricId m.metricId) = [] :=
    List.filter_eq_nil_iff.mpr fun m hmm => by simp [h m hmm]
  rw [hm]
  simp

/-- C4: a log row whose expId matches no experiment row, or whose metricId
matches no metric row, contributes no output row to join_tables: removing
it from the logs table leaves the join output unchanged, and no error is
reported. -/
theorem c4_unmatched_log_dropped (logs logs2 : List LogRow)
    (exps : List ExperimentRow) (mets : List MetricRow) (l : LogRow)
    (h : (∀ e ∈ exps, nullEqInt l.expId e.expId = false) ∨
      (∀ m ∈ mets, nullEqInt l.metricId m.metricId = false)) :
    join_tables (logs ++ l :: logs2) exps mets =
      join_tables (logs ++ logs2) exps mets := by
  rw [join_tables_append, join_tables_append, join_tables_cons]
  have hnil : join_tables [l] exps mets = [] := by
    rcases h with h | h
    · exact join_single_no_exp l exps mets h
    · exact join_single_no_met l exps mets h
  rw [hnil, List.nil_append]

/-- A log row whose expId is absent from the experiments table. -/
def logOrphan : LogRow := { logA with expId := some 5 }

/-- Witness for C4 at a concrete input: a log with expId 5 has no match in
the one-row experiments table and adding it does not change the join. -/
theorem c4_unmatched_log_dropped_witness :
    (∀ e ∈ [expOne], nullEqInt logOrphan.expId e.expId = false) ∧
      join_tables ([logB] ++ logOrphan :: []) [expOne] load_metrics =
        join_tables ([logB] ++ []) [expOne] load_metrics :=
  ⟨by decide,
    c4_unmatched_log_dropped [logB] [] [expOne] load_metrics logOrphan
      (Or.inl (by decide))⟩

/-- The length of a flatMap whose pieces all have the same length. -/
lemma length_flatMap_const {α β : Type _} (es : List α) (g : α → List β)
    (c : ℕ) (h : ∀ e, (g e).length = c) :
    (es.flatMap g).length = es.length * c := by
  induction es with
  | nil => simp
  | cons a t ih => simp [ih, h, Nat.succ_mul, Nat.add_comm]

/-- The join contribution of a single log row has one output row per
matching experiment row and matching metric row pair. -/
lemma join_single_length (l : LogRow) (exps : List ExperimentRow)
    (mets : List MetricRow) :
    (join_tables [l] exps mets).length =
      (exps.filter fun e => nullEqInt l.expId e.expId).length *
        (mets.filter fun m => nullEqInt l.metricId m.metricId).length := by
  simp only [join_tables, List.flatMap_cons, List.flatMap_nil, List.append_nil]
  exact length_flatMap_const _ _ _ fun e => by simp

/-- C5: join fan-out: a log row occurring in the logs table contributes
exactly (number of matching experiment rows) times (number of matching
metric rows) output rows to join_tables; in particular a duplicated expId
in the experiments table duplicates every matching log row. -/
theorem c5_join_fanout (logs logs2 : List LogRow) (exps : List ExperimentRow)
    (mets : List MetricRow) (l : LogRow) :
    (join_tables (logs ++ l :: logs2) exps mets).length =
      (join_tables (logs ++ logs2) exps mets).length +
        (exps.filter fun e => nullEqInt l.expId e.expId).length *
          (mets.filter fun m => nullEqInt l.metricId m.metricId).length := by
  rw [join_tables_append, join_tables_append, join_tables_cons]
  simp only [List.length_append, join_single_length]
  omega

/-- C7: the output of calculate_experiment_final_scores consists of rows of
the score schema expId, metricId, maxValue, minValue (the ScoreRow type),
with at most one row per distinct (expId, metricId) pair, and every output
key pair occurs in the input. -/
theorem c7_scores_schema (data : List FilteredRow) :
    ((calculate_experiment_final_scores data).map scoreKey).Nodup ∧
      ∀ s ∈ calculate_experiment_final_scores data,
        ∃ r ∈ data, rowKey r = scoreKey s := by
  constructor
  · have h : (calculate_experiment_final_scores data).map scoreKey =
        (data.map rowKey).dedup := by
      unfold calculate_experiment_final_scores
      rw [List.map_map]
      have hcongr : ∀ k ∈ (data.map rowKey).dedup,
          (scoreKey ∘ fun k : Option Int × Option Int =>
            ({ expId := k.1, metricId := k.2,
               maxValue := aggMax ((data.filter fun r => rowKey r == k).filterMap
                 fun r => r.value),
               minValue := aggMin ((data.filter fun r => rowKey r == k).filterMap
                 fun r => r.value) } : ScoreRow)) k = id k := by
        intro k _
        simp [scoreKey, Function.comp]
      rw [List.map_congr_left hcongr, List.map_id]
    rw [h]
    exact List.nodup_dedup _
  · intro s hs
    simp only [calculate_experiment_final_scores] at hs
    obtain ⟨k, hk, rfl⟩ := List.mem_map.mp hs
    rw [List.mem_dedup] at hk
    obtain ⟨r, hr, hkr⟩ := List.mem_map.mp hk
    exact ⟨r, hr, by simp [scoreKey, hkr]⟩

/-- C8: the valid column is pure pass-through: the join projection copies it
from the log row, the filter extension copies it unchanged, the filter
predicate does not depend on it, and the join predicate does not depend on
it (changing valid never changes how many rows a log row contributes). -/
theorem c8_valid_passthrough :
    (∀ (l : LogRow) (e : ExperimentRow) (m : MetricRow),
        (mkJoined l e m).valid = l.valid) ∧
      (∀ r : JoinedRow, (extendRow r).valid = r.valid) ∧
      (∀ (r : JoinedRow) (v : Option Bool) (hours : ℚ),
        keepLate (extendRow { r with valid := v }) hours =
          keepLate (extendRow r) hours) ∧
      (∀ (l : LogRow) (v : Option Bool) (exps : List ExperimentRow)
        (mets : List MetricRow),
        (join_tables [{ l with valid := v }] exps mets).length =
          (join_tables [l] exps mets).length) := by
  refine ⟨fun l e m => rfl, fun r => rfl, fun r v hours => rfl,
    fun l v exps mets => ?_⟩
  rw [join_single_length, join_single_length]

/-- A filtered row of group (expId 1, metricId 0) whose value column is
null, with every nullable column null. -/
def fRowNull : FilteredRow :=
  { logId := some "n", expId := some 1, expName := some "Exp1",
    metricId := some 0, metricName := some "Loss", valid := none,
    createdAt := none, ingestedAt := none, step := none, value := none,
    created_at_ts := none, ingested_at_ts := none, time_diff_hours := none }

/-- Counterexample to C3 as stated: a group whose values are all null is
not dropped: on a one-row input whose only value is null, the aggregation
outputs one row (with null maxValue and minValue), while the number of
distinct key pairs with at least one non-null value is zero. -/
theorem c3_all_null_group_counterexample :
    (calculate_experiment_final_scores [fRowNull]).length = 1 ∧
      ((([fRowNull].filter fun r => decide (r.value ≠ none)).map
        rowKey).dedup).length = 0 ∧
      calculate_experiment_final_scores [fRowNull] =
        [{ expId := some 1, metricId := some 0,
           maxValue := none, minValue := none }] := by
  decide

/-- A filtered row of group (expId 1, metricId 0) with the given value. -/
def scoreInput (v : Option ℚ) : FilteredRow := { fRowNull with value := v }

/-- C3 amended: the aggregation groups by (expId, metricId) and computes
maxValue and minValue ignoring null values (for values 3, 1, 5, null the
result is max 5 and min 1), and a key pair appears in the output exactly
when it appears in the input; an all-null group is kept as a row with null
maxValue and minValue, so the output row count equals the number of
distinct key pairs present in the input, not only those with a non-null
value. -/
theorem c3_amended_null_handling :
    (∀ (data : List FilteredRow) (k : Option Int × Option Int),
        (∃ r ∈ data, rowKey r = k) ↔
          ∃ s ∈ calculate_experiment_final_scores data, scoreKey s = k) ∧
      calculate_experiment_final_scores
          [scoreInput (some 3), scoreInput (some 1), scoreInput (some 5),
           scoreInput none] =
        [{ expId := some 1, metricId := some 0,
           maxValue := some 5, minValue := some 1 }] := by
  constructor
  · intro data k
    constructor
    · rintro ⟨r, hr, rfl⟩
      have hk : rowKey r ∈ (data.map rowKey).dedup :=
        List.mem_dedup.mpr (List.mem_map_of_mem _ hr)
      exact ⟨_, List.mem_map_of_mem _ hk, by simp [scoreKey]⟩
    · rintro ⟨s, hs, rfl⟩
      simp only [calculate_experiment_final_scores] at hs
      obtain ⟨k, hk, rfl⟩ := List.mem_map.mp hs
      rw [List.mem_dedup] at hk
      obtain ⟨r, hr, hkr⟩ := List.mem_map.mp hk
      exact ⟨r, hr, by simp [scoreKey, hkr]⟩
  · decide
